import Mathlib

/-
Shallow embedding of the nexrad-viewer radar pipeline
(src/nexrad_viewer/server.py): scan listing with local caching, polar-to-grid
resampling with noise masking, the rendered-image cache, and the optical-flow
nowcast with its persistence fallback.

Numeric radar samples are modelled as rationals; a missing sample (a numpy NaN
or masked value) is `none`.  External collaborators — the archive reader, the
scattered-data interpolator (scipy griddata), the renderer (matplotlib), and
the optical-flow estimator (pysteps Lucas-Kanade) — are parameters of the
functions that call them, mirroring the try-import / try-call structure of the
source.
-/

namespace NexradViewer

/-- One radar sample: `none` models a numpy NaN / masked (missing) value. -/
abbrev Cell := Option ℚ

/-- A 2-D array of samples with missing values (rows of cells). -/
abbrev Grid2 := List (List Cell)

/-- A 2-D array after `np.nan_to_num` filling (no missing values). -/
abbrev FilledGrid := List (List ℚ)

/-- The `field` selector of the pipeline: the two physical quantities. -/
inductive RadarField
  | reflectivity
  | velocity
deriving DecidableEq

/-- The noise floor of server.py (lines 480-488 and 605-612): reflectivity
below 5 dBZ, or velocity of absolute value below 1, is noise. -/
def belowFloor : RadarField → ℚ → Prop
  | .reflectivity, v => v < 5
  | .velocity, v => |v| < 1

instance (field : RadarField) (v : ℚ) : Decidable (belowFloor field v) := by
  cases field <;> simp only [belowFloor] <;> infer_instance

/-- `np.where(data < threshold, np.nan, data)` (server.py lines 605-612) and
`np.ma.masked_where(... < threshold, data)` (lines 480-488): a sample below
the field's noise floor becomes missing; missing samples stay missing. -/
def applyNoiseFloor : RadarField → Cell → Cell
  | _, none => none
  | .reflectivity, some v => if v < 5 then none else some v
  | .velocity, some v => if |v| < 1 then none else some v

/-- The sweep's sample array after noise-floor masking: what
`extract_radar_grid` interpolates and `generate_radar_image` renders. -/
def maskedSamples (field : RadarField) (data : List Cell) : List Cell :=
  data.map (applyNoiseFloor field)

/-- The non-missing masked values: `values[valid_mask]` of server.py line 641,
the scattered values handed to `scipy.interpolate.griddata`. -/
def validValues (field : RadarField) (data : List Cell) : List ℚ :=
  (maskedSamples field data).filterMap id

/-- The ordered field-name alias lists of server.py (lines 448 and 453; the
same lists appear at lines 588 and 593). -/
def fieldAliases : RadarField → List String
  | .reflectivity => ["reflectivity", "REF", "DBZH", "DBZ"]
  | .velocity => ["velocity", "VEL", "V"]

/-- `for try_field in aliases: if try_field in radar.fields: data = ...; break`
— the first alias present in the sweep's field table wins. -/
def findField (fs : List (String × List Cell)) : List String → Option (List Cell)
  | [] => none
  | a :: rest =>
    match fs.find? (fun p => p.1 = a) with
    | some p => some p.2
    | none => findField fs rest

/-- One decoded sweep, as `extract_radar_grid` and `generate_radar_image` see
it after `pyart.io.read_nexrad_archive`: the per-name sample arrays of the
lowest sweep, and the scan time string. -/
structure Sweep where
  fields : List (String × List Cell)
  scanTime : String
deriving DecidableEq

/-- The dictionary returned by a successful `extract_radar_grid`: the
interpolated regular grid and the scan timestamp. -/
structure GridRes where
  data : Grid2
  timestamp : String

/-- server.py `extract_radar_grid` (lines 549-667): resolve the field by its
alias list (returning `None` when absent), apply the noise floor, and fail
(`None`) when fewer than 100 valid scattered points remain; otherwise
interpolate the valid values onto the regular grid (`interp` stands for
`scipy.interpolate.griddata` over the fixed lon/lat mesh). -/
def extract_radar_grid (interp : List ℚ → Grid2) (sweep : Sweep)
    (field : RadarField) : Option GridRes :=
  match findField sweep.fields (fieldAliases field) with
  | none => none
  | some data =>
    if (validValues field data).length < 100 then none
    else some { data := interp (validValues field data), timestamp := sweep.scanTime }

theorem applyNoiseFloor_eq_none (field : RadarField) (v : ℚ)
    (hb : belowFloor field v) : applyNoiseFloor field (some v) = none := by
  cases field <;> simp only [belowFloor] at hb <;>
    simp only [applyNoiseFloor, if_pos hb]

theorem applyNoiseFloor_some (field : RadarField) (cell : Cell) (w : ℚ)
    (h : applyNoiseFloor field cell = some w) : ¬ belowFloor field w := by
  cases cell with
  | none => simp [applyNoiseFloor] at h
  | some u =>
    cases field <;> simp only [applyNoiseFloor] at h <;> split at h <;>
      simp_all [belowFloor]

/-- C4: for every sweep sample processed by the resampler and the image
generator, a reflectivity sample below 5 (respectively a velocity sample of
absolute value below 1) is missing in the masked array — the array that is
interpolated (extract_radar_grid) and rendered (generate_radar_image) — and
no value below the noise floor survives into the valid scattered points fed
to interpolation or motion estimation. -/
theorem noise_floor_masking (field : RadarField) (data : List Cell) (i : ℕ)
    (v : ℚ) (hv : data.getD i none = some v) (hb : belowFloor field v) :
    (maskedSamples field data).getD i none = none
    ∧ ∀ w ∈ validValues field data, ¬ belowFloor field w := by
  constructor
  · rw [List.getD_eq_getElem?_getD] at hv ⊢
    simp only [maskedSamples, List.getElem?_map]
    cases hcell : data[i]? with
    | none => simp [hcell] at hv
    | some cell =>
      simp only [hcell, Option.getD_some] at hv
      subst hv
      simp [applyNoiseFloor_eq_none field v hb]
  · intro w hw
    simp only [validValues, List.mem_filterMap, id_eq] at hw
    obtain ⟨c, hc, rfl⟩ := hw
    simp only [maskedSamples, List.mem_map] at hc
    obtain ⟨cell, _, hcell⟩ := hc
    exact applyNoiseFloor_some field cell w hcell

theorem noise_floor_masking_witness :
    (maskedSamples RadarField.reflectivity [some 2]).getD 0 none = none
    ∧ ∀ w ∈ validValues RadarField.reflectivity [some 2],
        ¬ belowFloor RadarField.reflectivity w :=
  noise_floor_masking RadarField.reflectivity [some 2] 0 2 (by decide) (by decide)

/-- C8: the resampler fails (returns `none`) exactly when the requested
physical field is absent from the sweep or fewer than 100 valid (non-missing)
scattered points remain after noise filtering; otherwise it returns a grid. -/
theorem resampler_failure_conditions (interp : List ℚ → Grid2) (sweep : Sweep)
    (field : RadarField) :
    (findField sweep.fields (fieldAliases field) = none →
      extract_radar_grid interp sweep field = none)
    ∧ ∀ data, findField sweep.fields (fieldAliases field) = some data →
      (extract_radar_grid interp sweep field = none
        ↔ (validValues field data).length < 100) := by
  constructor
  · intro h
    simp only [extract_radar_grid, h]
  · intro data h
    simp only [extract_radar_grid, h]
    constructor
    · intro he
      by_contra hge
      rw [if_neg hge] at he
      cases he
    · intro hlt
      rw [if_pos hlt]

/-- A sweep holding 100 valid reflectivity samples of value 7 dBZ. -/
def sweep100 : Sweep :=
  { fields := [("reflectivity", List.replicate 100 (some 7))], scanTime := "t" }

theorem resampler_failure_conditions_witness :
    extract_radar_grid (fun _ => []) sweep100 RadarField.reflectivity = none
      ↔ (validValues RadarField.reflectivity
          (List.replicate 100 (some 7))).length < 100 :=
  (resampler_failure_conditions (fun _ => []) sweep100 RadarField.reflectivity).2
    (List.replicate 100 (some 7)) (by decide)

/-- One record of the rendered-image cache: the dictionary
`(image, timestamp, bounds, error)` written by `save_cached_image`
(bounds, a pure function of the site coordinates, is omitted). -/
structure CachedImage where
  image : Option String
  timestamp : Option String
  error : Option String
deriving DecidableEq

/-- The rendered-image cache directory: one record per key, last write wins. -/
abbrev ImageCache := List (String × CachedImage)

/-- The display name of a field, as the `field` query string of server.py. -/
def fieldName : RadarField → String
  | .reflectivity => "reflectivity"
  | .velocity => "velocity"

/-- `get_image_cache_key` (server.py lines 90-95): the md5 of
`basename(radar_file) + "_" + field`; md5 is modelled by its preimage and the
file name stands for its basename. -/
def get_image_cache_key (radarFile : String) (field : RadarField) : String :=
  radarFile ++ "_" ++ fieldName field

/-- `get_cached_image` (lines 97-108): look the key up in the cache. -/
def get_cached_image (cache : ImageCache) (key : String) : Option CachedImage :=
  (cache.find? (fun p => p.1 = key)).map (fun p => p.2)

/-- `save_cached_image` (lines 110-118): write the record at the key
(overwriting; the newest record is found first). -/
def save_cached_image (cache : ImageCache) (key : String) (d : CachedImage) :
    ImageCache :=
  (key, d) :: cache

/-- The "No recent data" error message of server.py line 383. -/
def noDataMsg (station : String) : String := "No recent data for " ++ station

/-- The field-not-found error message of server.py line 462: it names the
list of fields that were present in the sweep. -/
def fieldNotFoundMsg (field : RadarField) (available : List String) : String :=
  "Field " ++ fieldName field ++ " not found. Available: "
    ++ String.intercalate ", " available

/-- server.py `generate_radar_image` (lines 372-524): report when no scan is
available; serve a cache hit unchanged; otherwise read the sweep (`readSweep`
stands for `pyart.io.read_nexrad_archive`, whose failure carries the exception
message), resolve the field by its aliases — reporting the available fields
when absent — mask by the noise floor, render (`render` stands for the
matplotlib rasterisation) and save the successful result to the cache.
Returns the result dictionary together with the updated cache. -/
def generate_radar_image (render : List Cell → String)
    (readSweep : String → Except String Sweep) (cache : ImageCache)
    (station : String) (radarFile : Option String) (field : RadarField) :
    CachedImage × ImageCache :=
  match radarFile with
  | none =>
    ({ image := none, timestamp := none, error := some (noDataMsg station) }, cache)
  | some file =>
    match get_cached_image cache (get_image_cache_key file field) with
    | some cached => (cached, cache)
    | none =>
      match readSweep file with
      | .error e => ({ image := none, timestamp := none, error := some e }, cache)
      | .ok sweep =>
        match findField sweep.fields (fieldAliases field) with
        | none =>
          ({ image := none, timestamp := none,
             error := some (fieldNotFoundMsg field (sweep.fields.map (fun p => p.1))) },
           cache)
        | some data =>
          let result : CachedImage :=
            { image := some (render (maskedSamples field data)),
              timestamp := some sweep.scanTime, error := none }
          (result, save_cached_image cache (get_image_cache_key file field) result)

/-- C9 counterexample input: a sweep carrying only a velocity field. -/
def sweepVelOnly : Sweep :=
  { fields := [("velocity", [some 3])], scanTime := "t0" }

/-- C9 counterexample input: a sweep carrying only a DBZH field. -/
def sweepDbzhOnly : Sweep :=
  { fields := [("DBZH", [some 20])], scanTime := "t0" }

/-- C9 is false of the grid resampler: when the requested field is absent,
`extract_radar_grid` returns the bare failure signal `None` — an outcome
carrying no error message at all, identical for sweeps with different
available fields, so it cannot name the fields that were present. -/
theorem field_absent_counterexample :
    extract_radar_grid (fun _ => []) sweepVelOnly RadarField.reflectivity = none
    ∧ extract_radar_grid (fun _ => []) sweepDbzhOnly RadarField.velocity = none := by
  constructor <;> rfl

/-- C9 amended: when the requested field is absent from the sweep,
`generate_radar_image` returns an error message naming the fields that were
present, while the grid resampler `extract_radar_grid` signals the absence
with a bare `none` carrying no message. -/
theorem field_absent_amended (render : List Cell → String)
    (readSweep : String → Except String Sweep) (cache : ImageCache)
    (station file : String) (field : RadarField) (sweep : Sweep)
    (interp : List ℚ → Grid2)
    (hread : readSweep file = Except.ok sweep)
    (habsent : findField sweep.fields (fieldAliases field) = none)
    (hmiss : get_cached_image cache (get_image_cache_key file field) = none) :
    (generate_radar_image render readSweep cache station (some file) field).1.error
      = some (fieldNotFoundMsg field (sweep.fields.map (fun p => p.1)))
    ∧ extract_radar_grid interp sweep field = none := by
  constructor
  · simp only [generate_radar_image, hmiss, hread, habsent]
  · simp only [extract_radar_grid, habsent]

theorem field_absent_amended_witness :
    (generate_radar_image (fun _ => "img") (fun _ => Except.ok sweepVelOnly) []
        "KOKX" (some "f") RadarField.reflectivity).1.error
      = some (fieldNotFoundMsg RadarField.reflectivity ["velocity"])
    ∧ extract_radar_grid (fun _ => []) sweepVelOnly RadarField.reflectivity = none :=
  field_absent_amended (fun _ => "img") (fun _ => Except.ok sweepVelOnly) []
    "KOKX" "f" RadarField.reflectivity sweepVelOnly (fun _ => [])
    rfl (by decide) rfl

/-- The invariant of the rendered-image cache: every stored record is a
successful render — no error, and an image present. -/
def CacheWF (cache : ImageCache) : Prop :=
  ∀ p ∈ cache, p.2.error = none ∧ p.2.image ≠ none

instance (cache : ImageCache) : Decidable (CacheWF cache) := by
  unfold CacheWF
  infer_instance

/-- C10: `save_cached_image` is reached only after a successful render, so a
well-formed cache stays well-formed across `generate_radar_image`, and a
cache hit returns the stored record — hence never an error outcome. -/
theorem image_cache_invariant (render : List Cell → String)
    (readSweep : String → Except String Sweep) (cache : ImageCache)
    (station : String) (radarFile : Option String) (field : RadarField)
    (hwf : CacheWF cache) :
    CacheWF (generate_radar_image render readSweep cache station radarFile field).2
    ∧ ∀ file rec, radarFile = some file →
        get_cached_image cache (get_image_cache_key file field) = some rec →
        (generate_radar_image render readSweep cache station radarFile field).1 = rec
        ∧ rec.error = none ∧ rec.image ≠ none := by
  have hrec : ∀ file rec,
      get_cached_image cache (get_image_cache_key file field) = some rec →
      rec.error = none ∧ rec.image ≠ none := by
    intro file rec hfind
    simp only [get_cached_image, Option.map_eq_some'] at hfind
    obtain ⟨p, hp, rfl⟩ := hfind
    exact hwf p (List.mem_of_find?_eq_some hp)
  constructor
  · cases radarFile with
    | none => exact hwf
    | some file =>
      cases hhit : get_cached_image cache (get_image_cache_key file field) with
      | some cached => simpa only [generate_radar_image, hhit] using hwf
      | none =>
        cases hread : readSweep file with
        | error e => simpa only [generate_radar_image, hhit, hread] using hwf
        | ok sweep =>
          cases habs : findField sweep.fields (fieldAliases field) with
          | none => simpa only [generate_radar_image, hhit, hread, habs] using hwf
          | some data =>
            simp only [generate_radar_image, hhit, hread, habs]
            intro p hp
            simp only [save_cached_image, List.mem_cons] at hp
            cases hp with
            | inl h => subst h; exact ⟨rfl, by simp⟩
            | inr h => exact hwf p h
  · intro file rec hfile hfind
    subst hfile
    refine ⟨?_, hrec file rec hfind⟩
    simp only [generate_radar_image, hfind]

/-- A well-formed one-record cache for the C10 witness. -/
def cacheW : ImageCache :=
  [("f_reflectivity", { image := some "img", timestamp := some "t", error := none })]

theorem image_cache_invariant_witness :
    CacheWF (generate_radar_image (fun _ => "x") (fun _ => Except.error "e") cacheW
        "KOKX" (some "f") RadarField.reflectivity).2
    ∧ (generate_radar_image (fun _ => "x") (fun _ => Except.error "e") cacheW
        "KOKX" (some "f") RadarField.reflectivity).1.error = none := by
  have h := image_cache_invariant (fun _ => "x") (fun _ => Except.error "e") cacheW
    "KOKX" (some "f") RadarField.reflectivity (by decide)
  refine ⟨h.1, ?_⟩
  have h2 := h.2 "f"
    { image := some "img", timestamp := some "t", error := none } rfl (by decide)
  rw [h2.1]

/-- The motion field returned by the dense optical-flow estimator:
`V[0]` (row motion) and `V[1]` (column motion), flattened, with `none` for a
NaN vector component. -/
structure MotionField where
  dy : List Cell
  dx : List Cell
deriving DecidableEq

/-- The outcome of the `motion.lucaskanade.dense_lucaskanade` call of
server.py lines 737-742: the estimator either raises (`fail`) or returns a
motion field. -/
inductive EstimResult
  | fail
  | ok (V : MotionField)
deriving DecidableEq

/-- `np.mean` over a list of rationals (`0` on an empty list, a case the code
guards against before using the value). -/
def qmean (l : List ℚ) : ℚ := l.sum / (l.length : ℚ)

/-- `v_y = V[0][~np.isnan(V[0])]` (server.py line 747). -/
def vyValid (V : MotionField) : List ℚ := V.dy.filterMap id

/-- `v_x = V[1][~np.isnan(V[1])]` (server.py line 748). -/
def vxValid (V : MotionField) : List ℚ := V.dx.filterMap id

/-- Server.py lines 749-766: when some non-NaN row components exist, the
motion is "essentially zero" — triggering the persistence fallback — iff
`abs(mean_vy) < 0.3 and abs(mean_vx) < 0.3`; a NaN `mean_vx` (no non-NaN
column components) compares false, and with no non-NaN row components the
check is skipped entirely. -/
def zeroMotion (V : MotionField) : Bool :=
  if (vyValid V).length = 0 then false
  else if |qmean (vyValid V)| < 3/10 then
    if (vxValid V).length = 0 then false
    else decide (|qmean (vxValid V)| < 3/10)
  else false

/-- The fallback decision of server.py lines 732-773 and 778: persistence mode
is used when the estimator raised, or when the estimated motion is essentially
zero. -/
def selectPersistence : EstimResult → Bool
  | .fail => true
  | .ok V => zeroMotion V

/-- `v_y_mean = np.nanmean(V[0])` of server.py line 792 (`0` when the
estimator failed; that branch never reads it). -/
def estimMeanDy : EstimResult → ℚ
  | .fail => 0
  | .ok V => qmean (vyValid V)

/-- `v_x_mean = np.nanmean(V[1])` of server.py line 793. -/
def estimMeanDx : EstimResult → ℚ
  | .fail => 0
  | .ok V => qmean (vxValid V)

/-- `np.nan_to_num(grid, nan=0.0)` (server.py line 726): missing cells become
the neutral value 0 for numerical estimation. -/
def fillGrid (g : Grid2) : FilledGrid := g.map (fun row => row.map (fun c => c.getD 0))

/-- Read a filled grid at integer indices, with 0 outside the bounds: the
constant fill (`mode='constant', cval=0`) of `scipy.ndimage.shift`, with no
wrap-around. -/
def cellAt (g : FilledGrid) (a b : ℤ) : ℚ :=
  if 0 ≤ a ∧ a < (g.length : ℤ) ∧ 0 ≤ b
      ∧ b < (((g.getD a.toNat []).length : ℕ) : ℤ) then
    (g.getD a.toNat []).getD b.toNat 0
  else 0

/-- `scipy.ndimage.shift(grid, [dy, dx], mode='constant', cval=0)` at an
integer displacement, where spline interpolation coincides with the exact
whole-grid translation: output cell `(r, c)` holds input cell
`(r - dy, c - dx)`, and content from outside the original bounds is the
constant 0 with no wrap-around. -/
def ndimageShift (g : FilledGrid) (dy dx : ℤ) : FilledGrid :=
  (List.range g.length).map (fun (r : ℕ) =>
    (List.range ((g.getD r []).length)).map (fun (c : ℕ) =>
      cellAt g ((r : ℤ) - dy) ((c : ℤ) - dx)))

/-- The shift call with rational displacement.  A fractional displacement
makes `scipy.ndimage.shift` resample through a cubic spline — floating-point
numerics outside this model — so the displacement is floored here and every
theorem about motion mode assumes an integral mean displacement, where the
floor is exact and the spline shift is the exact translation. -/
def ndimageShiftQ (g : FilledGrid) (dy dx : ℚ) : FilledGrid :=
  ndimageShift g ⌊dy⌋ ⌊dx⌋

/-- The motion-mode extrapolation loop of server.py lines 800-811: frame `i`
(0-based) is the last observed filled frame shifted by the accumulated motion
`((i+1)·mean_dy, (i+1)·mean_dx)`. -/
def motionForecast (last : FilledGrid) (dy dx : ℚ) (n : ℕ) : List FilledGrid :=
  (List.range n).map (fun (i : ℕ) =>
    ndimageShiftQ last (((i + 1 : ℕ) : ℚ) * dy) (((i + 1 : ℕ) : ℚ) * dx))

/-- The forecast stack of server.py lines 776-825: the last frame repeated in
persistence mode (also when the estimator failed, `V is None`), the
accumulated uniform shift otherwise. -/
def forecastStack (e : EstimResult) (last : FilledGrid) (n : ℕ) : List FilledGrid :=
  match e with
  | .fail => List.replicate n last
  | .ok V =>
    if zeroMotion V then List.replicate n last
    else motionForecast last (qmean (vyValid V)) (qmean (vxValid V)) n

/-- `np.sum(radar_stack > 10)` (server.py line 716): cells strictly above
10 dBZ count as significant precipitation; NaN compares false. -/
def cellSignificant (c : Cell) : Bool :=
  match c with
  | some v => decide (10 < v)
  | none => false

/-- The number of significant cells over the whole grid stack. -/
def significantCount (stack : List Grid2) : ℕ :=
  (stack.map (fun g => (g.map (fun row => (row.filter cellSignificant).length)).sum)).sum

/-- `radar_stack.size`: the total number of cells of the stack. -/
def stackSize (stack : List Grid2) : ℕ :=
  (stack.map (fun g => (g.map List.length).sum)).sum

/-- The render-time re-masking of forecast frames (server.py lines 863-875):
the same noise floor as extraction, applied to the filled frame. -/
def reMaskCell (field : RadarField) (v : ℚ) : Cell :=
  match field with
  | .reflectivity => if v < 5 then none else some v
  | .velocity => if |v| < 1 then none else some v

/-- Re-mask a filled forecast frame for rendering. -/
def reMask (field : RadarField) (g : FilledGrid) : Grid2 :=
  g.map (fun row => row.map (reMaskCell field))

/-- One rendered forecast frame (server.py lines 892-898; the timestamp
arithmetic on ISO strings is kept abstract through the lead time). -/
structure ForecastFrame where
  image : String
  leadTimeMin : ℕ
deriving DecidableEq

/-- The result dictionary of `generate_forecast`, instrumented with the
intermediate state the specification talks about: the forecast grid stack
before rendering, the last observed filled frame, the mean motion, the mode
decision (`some true` = persistence, `some false` = motion, `none` = failed
before the decision), and whether the estimator was invoked. -/
structure ForecastResult where
  error : Option String
  frames : List ForecastFrame
  stack : List FilledGrid
  lastFrame : FilledGrid
  meanDy : ℚ
  meanDx : ℚ
  mode : Option Bool
  usedEstimator : Bool

/-- The "not enough scans" error of server.py lines 685-688. -/
def notEnoughScansMsg (n : ℕ) : String :=
  "Not enough radar scans for forecasting (need 2+, got " ++ toString n ++ ")"

/-- The "failed to extract" error of server.py lines 700-703. -/
def failedExtractMsg : String := "Failed to extract radar grids for forecasting"

/-- The coverage-gate error of server.py lines 720-723. -/
def notEnoughPrecipMsg : String :=
  "Not enough precipitation to generate forecast. Forecast works best with active weather."

/-- The grid dictionaries successfully extracted from the scan files
(server.py lines 693-697). -/
def extractedGrids (extract : String → Option GridRes) (files : List String) :
    List GridRes :=
  files.filterMap extract

/-- `radar_stack = np.stack([g['data'] for g in grids])` (line 707). -/
def radarStackOf (grids : List GridRes) : List Grid2 := grids.map (fun g => g.data)

/-- `radar_stack_filled = np.nan_to_num(radar_stack, nan=0.0)` (line 726). -/
def filledStackOf (grids : List GridRes) : List FilledGrid :=
  (radarStackOf grids).map fillGrid

/-- `last_frame = radar_stack_filled[-1]` (line 776). -/
def lastFilled (grids : List GridRes) : FilledGrid :=
  (filledStackOf grids).getLast?.getD []

/-- A FAILED terminal state of the forecast pipeline: the error outcome with
zero frames; the estimator was not invoked. -/
def failResult (msg : String) : ForecastResult :=
  { error := some msg, frames := [], stack := [], lastFrame := [],
    meanDy := 0, meanDx := 0, mode := none, usedEstimator := false }

/-- The successful tail of `generate_forecast` (server.py lines 725-910):
estimate motion on the filled stack, decide the mode, extrapolate, re-mask
and render one frame per lead time. -/
def successResult (e : EstimResult) (render : Grid2 → String) (field : RadarField)
    (n t : ℕ) (grids : List GridRes) : ForecastResult :=
  { error := none
    frames := (List.range n).map (fun i =>
      { image := render (reMask field ((forecastStack e (lastFilled grids) n).getD i []))
        leadTimeMin := (i + 1) * t })
    stack := forecastStack e (lastFilled grids) n
    lastFrame := lastFilled grids
    meanDy := estimMeanDy e
    meanDx := estimMeanDx e
    mode := some (selectPersistence e)
    usedEstimator := true }

/-- server.py `generate_forecast` (lines 670-910): fail on fewer than 2 scan
files, fail when fewer than 2 grids extract, fail on the precipitation
coverage gate `np.sum(radar_stack > 10) / radar_stack.size < 0.01` (stated
integrally as `100·count < size`), and otherwise run the estimator on the
filled stack and extrapolate.  `extract` stands for `extract_radar_grid`
applied to a file, `estimator` for the pysteps optical-flow call, `render`
for the matplotlib rasterisation of one frame. -/
def generate_forecast (extract : String → Option GridRes)
    (estimator : List FilledGrid → EstimResult) (render : Grid2 → String)
    (files : List String) (field : RadarField) (n t : ℕ) : ForecastResult :=
  if files.length < 2 then failResult (notEnoughScansMsg files.length)
  else if (extractedGrids extract files).length < 2 then failResult failedExtractMsg
  else if 100 * significantCount (radarStackOf (extractedGrids extract files)) <
      stackSize (radarStackOf (extractedGrids extract files)) then
    failResult notEnoughPrecipMsg
  else
    successResult (estimator (filledStackOf (extractedGrids extract files)))
      render field n t (extractedGrids extract files)

theorem generate_forecast_success (extract : String → Option GridRes)
    (estimator : List FilledGrid → EstimResult) (render : Grid2 → String)
    (files : List String) (field : RadarField) (n t : ℕ)
    (hsucc : (generate_forecast extract estimator render files field n t).error = none) :
    generate_forecast extract estimator render files field n t
      = successResult (estimator (filledStackOf (extractedGrids extract files)))
          render field n t (extractedGrids extract files) := by
  unfold generate_forecast at hsucc ⊢
  split_ifs at hsucc ⊢ <;> first
    | rfl
    | exact Option.noConfusion hsucc

theorem zeroMotion_eq_true (V : MotionField)
    (hy : vyValid V ≠ []) (hx : vxValid V ≠ [])
    (h1 : |qmean (vyValid V)| < 3/10) (h2 : |qmean (vxValid V)| < 3/10) :
    zeroMotion V = true := by
  unfold zeroMotion
  rw [if_neg (fun h => hy (List.length_eq_zero.mp h)), if_pos h1,
    if_neg (fun h => hx (List.length_eq_zero.mp h))]
  exact decide_eq_true h2

theorem zeroMotion_eq_false (V : MotionField)
    (h : 3/10 ≤ |qmean (vyValid V)| ∨ 3/10 ≤ |qmean (vxValid V)|) :
    zeroMotion V = false := by
  unfold zeroMotion
  split_ifs with h0 h1 h2
  · rfl
  · rfl
  · cases h with
    | inl hy => exact absurd h1 (not_lt.mpr hy)
    | inr hx => exact decide_eq_false (not_lt.mpr hx)
  · rfl

/-- C1: on a run that reaches the estimation stage, the mode decision is
`selectPersistence` of the estimator outcome: an estimator failure selects
persistence; a success whose per-component means over the non-missing vectors
are both below 0.3 in absolute value selects persistence; a success with
either mean at least 0.3 in absolute value selects motion mode. -/
theorem fallback_persistence_rule (e : EstimResult) (extract : String → Option GridRes)
    (render : Grid2 → String) (files : List String) (field : RadarField) (n t : ℕ)
    (hsucc : (generate_forecast extract (fun _ => e) render files field n t).error = none) :
    ((generate_forecast extract (fun _ => e) render files field n t).mode
      = some (selectPersistence e))
    ∧ (e = EstimResult.fail →
      (generate_forecast extract (fun _ => e) render files field n t).mode = some true)
    ∧ ∀ V, e = EstimResult.ok V → vyValid V ≠ [] → vxValid V ≠ [] →
      ((|qmean (vyValid V)| < 3/10 ∧ |qmean (vxValid V)| < 3/10) →
        (generate_forecast extract (fun _ => e) render files field n t).mode = some true)
      ∧ ((3/10 ≤ |qmean (vyValid V)| ∨ 3/10 ≤ |qmean (vxValid V)|) →
        (generate_forecast extract (fun _ => e) render files field n t).mode = some false) := by
  rw [generate_forecast_success extract (fun _ => e) render files field n t hsucc]
  refine ⟨rfl, ?_, ?_⟩
  · intro hfail
    subst hfail
    rfl
  · intro V hV hy hx
    subst hV
    constructor
    · intro ⟨h1, h2⟩
      show some (selectPersistence (EstimResult.ok V)) = some true
      rw [show selectPersistence (EstimResult.ok V) = zeroMotion V from rfl,
        zeroMotion_eq_true V hy hx h1 h2]
    · intro h
      show some (selectPersistence (EstimResult.ok V)) = some false
      rw [show selectPersistence (EstimResult.ok V) = zeroMotion V from rfl,
        zeroMotion_eq_false V h]

/-- Shared concrete run inputs for the forecast witnesses: two scan files,
each extracting to a one-cell grid of 11 dBZ (full coverage). -/
def wGrid : GridRes := { data := [[some 11]], timestamp := "t" }

def wExtract : String → Option GridRes := fun _ => some wGrid

def wRender : Grid2 → String := fun _ => "img"

def wFiles : List String := ["a", "b"]

/-- A motion field with mean (1, 1): well above the 0.3 threshold. -/
def wMotion : MotionField := { dy := [some 1], dx := [some 1] }

theorem fallback_persistence_rule_witness :
    (generate_forecast wExtract (fun _ => EstimResult.ok wMotion) wRender wFiles
      RadarField.reflectivity 6 5).mode = some false := by
  have h := fallback_persistence_rule (EstimResult.ok wMotion) wExtract wRender wFiles
    RadarField.reflectivity 6 5 (by decide)
  exact (h.2.2 wMotion rfl (by decide) (by decide)).2
    (Or.inl (by norm_num [qmean, vyValid, wMotion, List.filterMap_cons]))

/-- C2: when at least 2 grids extract but fewer than 1 percent of the stack's
cells exceed 10 dBZ, the run ends in the "not enough precipitation" outcome
with zero frames and the motion estimator is never invoked. -/
theorem coverage_gate (extract : String → Option GridRes)
    (estimator : List FilledGrid → EstimResult) (render : Grid2 → String)
    (files : List String) (field : RadarField) (n t : ℕ)
    (hgrids : 2 ≤ (extractedGrids extract files).length)
    (hcov : 100 * significantCount (radarStackOf (extractedGrids extract files)) <
      stackSize (radarStackOf (extractedGrids extract files))) :
    (generate_forecast extract estimator render files field n t).error
      = some notEnoughPrecipMsg
    ∧ (generate_forecast extract estimator render files field n t).frames = []
    ∧ (generate_forecast extract estimator render files field n t).usedEstimator = false := by
  have hle : (extractedGrids extract files).length ≤ files.length :=
    List.length_filterMap_le extract files
  unfold generate_forecast
  rw [if_neg (by omega), if_neg (by omega), if_pos hcov]
  exact ⟨rfl, rfl, rfl⟩

/-- A low-coverage extraction: each grid has one cell of 1 dBZ. -/
def wLowExtract : String → Option GridRes :=
  fun _ => some { data := [[some 1]], timestamp := "t" }

theorem coverage_gate_witness :
    (generate_forecast wLowExtract (fun _ => EstimResult.fail) wRender wFiles
      RadarField.reflectivity 6 5).error = some notEnoughPrecipMsg := by
  have h := coverage_gate wLowExtract (fun _ => EstimResult.fail) wRender wFiles
    RadarField.reflectivity 6 5 (by decide) (by decide)
  exact h.1

/-- C3: with `leadTimes = 6` the forecast returns exactly 6 frames on a
successful run, and zero frames together with an error outcome on any FAILED
terminal state — no other frame count is possible. -/
theorem frame_count_six (extract : String → Option GridRes)
    (estimator : List FilledGrid → EstimResult) (render : Grid2 → String)
    (files : List String) (field : RadarField) (t : ℕ) :
    ((generate_forecast extract estimator render files field 6 t).error = none
      ∧ (generate_forecast extract estimator render files field 6 t).frames.length = 6)
    ∨ ((generate_forecast extract estimator render files field 6 t).error ≠ none
      ∧ (generate_forecast extract estimator render files field 6 t).frames = []) := by
  unfold generate_forecast
  split_ifs <;> simp [failResult, successResult]

theorem list_getD_replicate {α : Type} (a d : α) (n i : ℕ) (hi : i < n) :
    (List.replicate n a).getD i d = a := by
  rw [List.getD_eq_getElem?_getD, List.getElem?_replicate, if_pos hi]
  rfl

/-- C6: whenever persistence mode is selected, the forecast stack is the last
observed filled grid repeated `leadTimes` times, unchanged. -/
theorem persistence_repeats_last (extract : String → Option GridRes)
    (estimator : List FilledGrid → EstimResult) (render : Grid2 → String)
    (files : List String) (field : RadarField) (n t : ℕ)
    (hsucc : (generate_forecast extract estimator render files field n t).error = none)
    (hmode : (generate_forecast extract estimator render files field n t).mode = some true) :
    (generate_forecast extract estimator render files field n t).stack.length = n
    ∧ ∀ i, i < n →
      (generate_forecast extract estimator render files field n t).stack.getD i []
        = (generate_forecast extract estimator render files field n t).lastFrame := by
  rw [generate_forecast_success extract estimator render files field n t hsucc] at hmode ⊢
  have hstack : forecastStack (estimator (filledStackOf (extractedGrids extract files)))
      (lastFilled (extractedGrids extract files)) n
      = List.replicate n (lastFilled (extractedGrids extract files)) := by
    cases he : estimator (filledStackOf (extractedGrids extract files)) with
    | fail => rfl
    | ok V =>
      have hz : zeroMotion V = true := by
        have := hmode
        rw [show (successResult (estimator (filledStackOf (extractedGrids extract files)))
            render field n t (extractedGrids extract files)).mode
          = some (selectPersistence (estimator (filledStackOf (extractedGrids extract files))))
          from rfl, he] at this
        simpa [selectPersistence] using this
      simp only [forecastStack, hz, if_pos]
  show (successResult _ render field n t _).stack.length = n
    ∧ ∀ i, i < n → (successResult _ render field n t _).stack.getD i []
      = (successResult _ render field n t _).lastFrame
  simp only [successResult, hstack]
  exact ⟨List.length_replicate n _, fun i hi => list_getD_replicate _ _ n i hi⟩

theorem persistence_repeats_last_witness :
    (generate_forecast wExtract (fun _ => EstimResult.fail) wRender wFiles
      RadarField.reflectivity 2 5).stack.getD 0 []
      = (generate_forecast wExtract (fun _ => EstimResult.fail) wRender wFiles
        RadarField.reflectivity 2 5).lastFrame := by
  have h := persistence_repeats_last wExtract (fun _ => EstimResult.fail) wRender wFiles
    RadarField.reflectivity 2 5 (by decide) (by decide)
  exact h.2 0 (by decide)

theorem motionForecast_getD (last : FilledGrid) (dy dx : ℚ) (n j : ℕ) (hj : j < n) :
    (motionForecast last dy dx n).getD j []
      = ndimageShiftQ last (((j + 1 : ℕ) : ℚ) * dy) (((j + 1 : ℕ) : ℚ) * dx) := by
  unfold motionForecast
  rw [List.getD_eq_getElem?_getD, List.getElem?_map, List.getElem?_range hj]
  rfl

theorem ndimageShift_getD (g : FilledGrid) (dy dx : ℤ) (r c : ℕ)
    (hr : r < g.length) (hc : c < (g.getD r []).length) :
    ((ndimageShift g dy dx).getD r []).getD c 0
      = cellAt g ((r : ℤ) - dy) ((c : ℤ) - dx) := by
  have h1 : (ndimageShift g dy dx).getD r []
      = (List.range ((g.getD r []).length)).map (fun (c : ℕ) =>
          cellAt g ((r : ℤ) - dy) ((c : ℤ) - dx)) := by
    unfold ndimageShift
    rw [List.getD_eq_getElem?_getD, List.getElem?_map, List.getElem?_range hr]
    rfl
  rw [h1, List.getD_eq_getElem?_getD, List.getElem?_map, List.getElem?_range hc]
  rfl

/-- C5: in motion mode with an integral mean displacement, forecast frame `i`
(1-indexed) is the last observed filled grid translated as a whole by
`(i·mean_dy, i·mean_dx)` grid cells; `cellAt` reads the source cell when it
lies inside the original bounds and the constant 0 otherwise, with no
wrap-around.  (A fractional mean displacement makes `scipy.ndimage.shift`
resample through a spline — floating-point numerics outside this model.) -/
theorem motion_mode_uniform_shift (extract : String → Option GridRes)
    (estimator : List FilledGrid → EstimResult) (render : Grid2 → String)
    (files : List String) (field : RadarField) (n t : ℕ) (dy dx : ℤ) (i r c : ℕ)
    (hsucc : (generate_forecast extract estimator render files field n t).error = none)
    (hmode : (generate_forecast extract estimator render files field n t).mode = some false)
    (hdy : (generate_forecast extract estimator render files field n t).meanDy = (dy : ℚ))
    (hdx : (generate_forecast extract estimator render files field n t).meanDx = (dx : ℚ))
    (hi1 : 1 ≤ i) (hin : i ≤ n)
    (hr : r < (generate_forecast extract estimator render files field n t).lastFrame.length)
    (hc : c < ((generate_forecast extract estimator render files field n t).lastFrame.getD
      r []).length) :
    (((generate_forecast extract estimator render files field n t).stack.getD
        (i - 1) []).getD r []).getD c 0
      = cellAt (generate_forecast extract estimator render files field n t).lastFrame
          ((r : ℤ) - (i : ℤ) * dy) ((c : ℤ) - (i : ℤ) * dx) := by
  rw [generate_forecast_success extract estimator render files field n t hsucc]
    at hmode hdy hdx hr hc ⊢
  have hsel : selectPersistence (estimator (filledStackOf (extractedGrids extract files)))
      = false := Option.some.inj hmode
  have hdyE : estimMeanDy (estimator (filledStackOf (extractedGrids extract files)))
      = (dy : ℚ) := hdy
  have hdxE : estimMeanDx (estimator (filledStackOf (extractedGrids extract files)))
      = (dx : ℚ) := hdx
  have hrL : r < (lastFilled (extractedGrids extract files)).length := hr
  have hcL : c < ((lastFilled (extractedGrids extract files)).getD r []).length := hc
  show (((forecastStack (estimator (filledStackOf (extractedGrids extract files)))
      (lastFilled (extractedGrids extract files)) n).getD (i - 1) []).getD r []).getD c 0
    = cellAt (lastFilled (extractedGrids extract files))
        ((r : ℤ) - (i : ℤ) * dy) ((c : ℤ) - (i : ℤ) * dx)
  cases hE : estimator (filledStackOf (extractedGrids extract files)) with
  | fail =>
    rw [hE] at hsel
    simp [selectPersistence] at hsel
  | ok V =>
    rw [hE] at hsel hdyE hdxE
    have hz : zeroMotion V = false := by simpa [selectPersistence] using hsel
    simp only [estimMeanDy] at hdyE
    simp only [estimMeanDx] at hdxE
    simp only [forecastStack, hz, Bool.false_eq_true, if_false]
    rw [hdyE, hdxE]
    have hj : i - 1 < n := by omega
    rw [motionForecast_getD _ _ _ n (i - 1) hj]
    have hii : i - 1 + 1 = i := by omega
    rw [hii]
    have hdyq : ((i : ℕ) : ℚ) * ((dy : ℤ) : ℚ) = (((i : ℤ) * dy : ℤ) : ℚ) := by
      push_cast
      ring
    have hdxq : ((i : ℕ) : ℚ) * ((dx : ℤ) : ℚ) = (((i : ℤ) * dx : ℤ) : ℚ) := by
      push_cast
      ring
    rw [hdyq, hdxq]
    unfold ndimageShiftQ
    rw [Int.floor_intCast, Int.floor_intCast]
    exact ndimageShift_getD _ _ _ r c hrL hcL

theorem motion_mode_uniform_shift_witness :
    (((generate_forecast wExtract (fun _ => EstimResult.ok wMotion) wRender wFiles
        RadarField.reflectivity 1 5).stack.getD 0 []).getD 0 []).getD 0 0 = 0 := by
  have hs := generate_forecast_success wExtract (fun _ => EstimResult.ok wMotion) wRender
    wFiles RadarField.reflectivity 1 5 (by decide)
  have hmode : (generate_forecast wExtract (fun _ => EstimResult.ok wMotion) wRender wFiles
      RadarField.reflectivity 1 5).mode = some false := by
    rw [hs]
    show some (selectPersistence (EstimResult.ok wMotion)) = some false
    rw [show selectPersistence (EstimResult.ok wMotion) = zeroMotion wMotion from rfl,
      zeroMotion_eq_false wMotion
        (Or.inl (by norm_num [qmean, vyValid, wMotion, List.filterMap_cons]))]
  have hdy : (generate_forecast wExtract (fun _ => EstimResult.ok wMotion) wRender wFiles
      RadarField.reflectivity 1 5).meanDy = ((1 : ℤ) : ℚ) := by
    rw [hs]
    show estimMeanDy (EstimResult.ok wMotion) = ((1 : ℤ) : ℚ)
    norm_num [estimMeanDy, qmean, vyValid, wMotion, List.filterMap_cons]
  have hdx : (generate_forecast wExtract (fun _ => EstimResult.ok wMotion) wRender wFiles
      RadarField.reflectivity 1 5).meanDx = ((1 : ℤ) : ℚ) := by
    rw [hs]
    show estimMeanDx (EstimResult.ok wMotion) = ((1 : ℤ) : ℚ)
    norm_num [estimMeanDx, qmean, vxValid, wMotion, List.filterMap_cons]
  have h := motion_mode_uniform_shift wExtract (fun _ => EstimResult.ok wMotion) wRender
    wFiles RadarField.reflectivity 1 5 1 1 1 0 0 (by decide) hmode hdy hdx
    (by decide) (by decide) (by decide) (by decide)
  exact h.trans (by decide)

/-- One remote scan reference: the station code (a numeric model of the
four-letter identifier), the timestamp encoded in the fixed-width filename
digits, and whether the remote key carries the `_MDM` metadata marker
(server.py line 324). -/
structure ScanRef where
  station : ℕ
  ts : ℕ
  mdm : Bool
deriving DecidableEq

/-- Python's filename sort order: filenames are the station code followed by
fixed-width timestamp digits, so string comparison is station-major, then
timestamp. -/
def scanLe (a b : ScanRef) : Prop :=
  a.station < b.station ∨ (a.station = b.station ∧ a.ts ≤ b.ts)

instance : DecidableRel scanLe := fun a b =>
  decidable_of_iff (a.station < b.station ∨ (a.station = b.station ∧ a.ts ≤ b.ts)) Iff.rfl

instance : IsTotal ScanRef scanLe := by
  refine ⟨fun a b => ?_⟩
  unfold scanLe
  omega

instance : IsTrans ScanRef scanLe := by
  refine ⟨fun a b c hab hbc => ?_⟩
  unfold scanLe at hab hbc ⊢
  omega

/-- `downloaded_files.sort()` (server.py lines 355 and 363). -/
def sortScans (l : List ScanRef) : List ScanRef := List.insertionSort scanLe l

/-- The Python slice `l[-count:]`: the whole list when `count = 0` (Python's
`-0` is `0`) or when `count` is at least the length. -/
def pyTailSlice (count : ℕ) (l : List ScanRef) : List ScanRef :=
  if count = 0 then l else l.drop (l.length - count)

/-- The `for scan in recent_scans` loop of `get_radar_scans` (server.py lines
331-356): each scan is served from the local cache or downloaded (`ok scan`;
a failed download hits `continue`, which also skips the length check); once
`count` files are collected the loop sorts them and returns the last `count`
(`Sum.inl`), otherwise the accumulator passes to the next day (`Sum.inr`). -/
def scanLoop (ok : ScanRef → Bool) (count : ℕ) :
    List ScanRef → List ScanRef → List ScanRef ⊕ List ScanRef
  | [], acc => Sum.inr acc
  | s :: rest, acc =>
    if ok s then
      if count ≤ acc.length + 1 then
        Sum.inl (pyTailSlice count (sortScans (acc ++ [s])))
      else scanLoop ok count rest (acc ++ [s])
    else scanLoop ok count rest acc

/-- The `for days_ago in range(2)` loop (server.py lines 317-364): a day whose
remote listing raises (`none`), is empty, or holds only `_MDM` records is
skipped; otherwise the last `count` valid scans are processed.  When the days
are exhausted the collected files are sorted and returned. -/
def daysLoop (ok : ScanRef → Bool) (count : ℕ) :
    List (Option (List ScanRef)) → List ScanRef → List ScanRef
  | [], acc => sortScans acc
  | day :: rest, acc =>
    match day with
    | none => daysLoop ok count rest acc
    | some scans =>
      if scans.isEmpty then daysLoop ok count rest acc
      else
        if (scans.filter (fun s => !s.mdm)).isEmpty then daysLoop ok count rest acc
        else
          match scanLoop ok count (pyTailSlice count (scans.filter (fun s => !s.mdm))) acc with
          | Sum.inl result => result
          | Sum.inr acc2 => daysLoop ok count rest acc2

/-- server.py `get_radar_scans` (lines 306-364): search today, then the
previous UTC day. -/
def get_radar_scans (ok : ScanRef → Bool) (day0 day1 : Option (List ScanRef))
    (count : ℕ) : List ScanRef :=
  daysLoop ok count [day0, day1] []

theorem sortScans_sorted (l : List ScanRef) : List.Sorted scanLe (sortScans l) :=
  List.sorted_insertionSort scanLe l

theorem mem_sortScans {x : ScanRef} {l : List ScanRef} (h : x ∈ sortScans l) : x ∈ l :=
  (List.perm_insertionSort scanLe l).mem_iff.mp h

theorem pyTailSlice_sorted {l : List ScanRef} (n : ℕ) (h : List.Sorted scanLe l) :
    List.Sorted scanLe (pyTailSlice n l) := by
  unfold pyTailSlice
  split
  · exact h
  · exact List.Pairwise.sublist (List.drop_sublist _ l) h

theorem pyTailSlice_subset (n : ℕ) (l : List ScanRef) : pyTailSlice n l ⊆ l := by
  unfold pyTailSlice
  split
  · exact fun x hx => hx
  · exact (List.drop_sublist _ l).subset

theorem scanLoop_spec (ok : ScanRef → Bool) (count : ℕ) (st : ℕ) :
    ∀ (scans acc : List ScanRef),
      (∀ x ∈ acc, x.station = st) → (∀ x ∈ scans, x.station = st) →
      (∀ res, scanLoop ok count scans acc = Sum.inl res →
        List.Sorted scanLe res ∧ ∀ x ∈ res, x.station = st)
      ∧ (∀ acc2, scanLoop ok count scans acc = Sum.inr acc2 →
        ∀ x ∈ acc2, x.station = st) := by
  intro scans
  induction scans with
  | nil =>
    intro acc hacc _
    refine ⟨fun res hres => ?_, fun acc2 h2 => ?_⟩
    · cases hres
    · cases h2
      exact hacc
  | cons s rest ih =>
    intro acc hacc hscans
    have hs : s.station = st := hscans s (List.mem_cons_self s rest)
    have hrest : ∀ x ∈ rest, x.station = st :=
      fun x hx => hscans x (List.mem_cons_of_mem s hx)
    have haccs : ∀ x ∈ acc ++ [s], x.station = st := by
      intro x hx
      rcases List.mem_append.mp hx with h | h
      · exact hacc x h
      · rw [List.mem_singleton.mp h]
        exact hs
    constructor
    · intro res hres
      simp only [scanLoop] at hres
      by_cases hok : ok s
      · rw [if_pos hok] at hres
        by_cases hcnt : count ≤ acc.length + 1
        · rw [if_pos hcnt] at hres
          cases hres
          refine ⟨pyTailSlice_sorted count (sortScans_sorted _), fun x hx => ?_⟩
          exact haccs x (mem_sortScans (pyTailSlice_subset count _ hx))
        · rw [if_neg hcnt] at hres
          exact (ih (acc ++ [s]) haccs hrest).1 res hres
      · rw [if_neg hok] at hres
        exact (ih acc hacc hrest).1 res hres
    · intro acc2 h2
      simp only [scanLoop] at h2
      by_cases hok : ok s
      · rw [if_pos hok] at h2
        by_cases hcnt : count ≤ acc.length + 1
        · rw [if_pos hcnt] at h2
          cases h2
        · rw [if_neg hcnt] at h2
          exact (ih (acc ++ [s]) haccs hrest).2 acc2 h2
      · rw [if_neg hok] at h2
        exact (ih acc hacc hrest).2 acc2 h2

theorem daysLoop_spec (ok : ScanRef → Bool) (count : ℕ) (st : ℕ) :
    ∀ (days : List (Option (List ScanRef))) (acc : List ScanRef),
      (∀ x ∈ acc, x.station = st) →
      (∀ scans, some scans ∈ days → ∀ x ∈ scans, x.station = st) →
      List.Sorted scanLe (daysLoop ok count days acc)
      ∧ ∀ x ∈ daysLoop ok count days acc, x.station = st := by
  intro days
  induction days with
  | nil =>
    intro acc hacc _
    exact ⟨sortScans_sorted acc, fun x hx => hacc x (mem_sortScans hx)⟩
  | cons day rest ih =>
    intro acc hacc hdays
    have hrest : ∀ scans, some scans ∈ rest → ∀ x ∈ scans, x.station = st :=
      fun scans hsc => hdays scans (List.mem_cons_of_mem day hsc)
    cases day with
    | none =>
      simp only [daysLoop]
      exact ih acc hacc hrest
    | some scans =>
      have hscans : ∀ x ∈ scans, x.station = st :=
        hdays scans (List.mem_cons_self _ rest)
      simp only [daysLoop]
      by_cases h1 : scans.isEmpty
      · rw [if_pos h1]
        exact ih acc hacc hrest
      · rw [if_neg h1]
        by_cases h2 : (scans.filter (fun s => !s.mdm)).isEmpty
        · rw [if_pos h2]
          exact ih acc hacc hrest
        · rw [if_neg h2]
          have hfilter : ∀ x ∈ pyTailSlice count (scans.filter (fun s => !s.mdm)),
              x.station = st := by
            intro x hx
            exact hscans x (List.mem_of_mem_filter (pyTailSlice_subset count _ hx))
          cases hloop : scanLoop ok count
              (pyTailSlice count (scans.filter (fun s => !s.mdm))) acc with
          | inl res =>
            exact (scanLoop_spec ok count st _ acc hacc hfilter).1 res hloop
          | inr acc2 =>
            exact ih acc2 ((scanLoop_spec ok count st _ acc hacc hfilter).2 acc2 hloop) hrest

/-- C7: for a single station, the list of scan files returned by the scan
store is in non-decreasing timestamp order (oldest first): every return path
of `get_radar_scans` sorts by filename, and for one station the fixed-width
filename order coincides with the timestamp order. -/
theorem scan_list_chronological (ok : ScanRef → Bool)
    (day0 day1 : Option (List ScanRef)) (count : ℕ) (st : ℕ)
    (h0 : ∀ scans, day0 = some scans → ∀ x ∈ scans, x.station = st)
    (h1 : ∀ scans, day1 = some scans → ∀ x ∈ scans, x.station = st) :
    List.Sorted (fun a b : ScanRef => a.ts ≤ b.ts)
      (get_radar_scans ok day0 day1 count) := by
  have hdays : ∀ scans, some scans ∈ [day0, day1] → ∀ x ∈ scans, x.station = st := by
    intro scans hsc
    simp only [List.mem_cons, List.not_mem_nil, or_false] at hsc
    rcases hsc with h | h
    · exact h0 scans h.symm
    · exact h1 scans h.symm
  have h := daysLoop_spec ok count st [day0, day1] [] (fun x hx => absurd hx (by simp)) hdays
  refine List.Pairwise.imp_of_mem ?_ h.1
  intro a b ha hb hab
  have hsa := h.2 a ha
  have hsb := h.2 b hb
  rcases hab with hlt | ⟨_, hts⟩
  · rw [hsa, hsb] at hlt
    exact absurd hlt (lt_irrefl st)
  · exact hts

/-- A concrete day listing for the C7 witness: two same-station scans given
newest first by the remote. -/
def wDay : Option (List ScanRef) :=
  some [{ station := 1, ts := 5, mdm := false }, { station := 1, ts := 3, mdm := false }]

theorem scan_list_chronological_witness :
    List.Sorted (fun a b : ScanRef => a.ts ≤ b.ts)
      (get_radar_scans (fun _ => true) wDay none 2) := by
  refine scan_list_chronological (fun _ => true) wDay none 2 1 ?_ ?_
  · intro scans hs
    injection hs with h
    subst h
    decide
  · intro scans hs
    exact Option.noConfusion hs

end NexradViewer
